import Mathlib

/-!
Shallow embedding of the Twitch sentiment-analysis pipeline (`svm.py`,
`API.py`): IRC line parsing, the bounded in-memory sentiment cache, the
per-message processing step, the aggregation function, and the SSE stream
publisher loop.  Python strings are modelled as `List Char` (wrapped in
`String` at the boundaries), sentiment scores as `ℚ`, and code that can
raise as `Except String` / `Option`.
-/

/-! ### Python string primitives -/

/-- Model of Python `s.startswith(pat)` on character lists: `startsWithList pat cs`
is true when `pat` is an initial segment of `cs`. -/
def startsWithList : List Char → List Char → Bool
  | [], _ => true
  | _ :: _, [] => false
  | p :: ps, c :: cs => p == c && startsWithList ps cs

/-- Model of Python `pat in s` (substring containment): `pat` occurs starting at
some position of the list. -/
def containsSub (pat : List Char) : List Char → Bool
  | [] => pat.isEmpty
  | c :: cs => startsWithList pat (c :: cs) || containsSub pat cs

/-- Everything before the first occurrence of `ch` (model of Python
`s.split(ch)[0]`, which is the whole string when `ch` does not occur). -/
def beforeChar (ch : Char) : List Char → List Char
  | [] => []
  | c :: cs => if c == ch then [] else c :: beforeChar ch cs

/-- One split step of Python `s.split(" ", n)`: the segment before the first
space and, when a space exists, the remainder after it. -/
def breakAtSpace : List Char → List Char × Option (List Char)
  | [] => ([], none)
  | c :: cs =>
      if c == ' ' then ([], some cs)
      else
        let r := breakAtSpace cs
        (c :: r.1, r.2)

/-- Python `s.split(" ", maxsplit)`: split at the first `maxsplit` spaces,
leaving the remainder unsplit as the final element. -/
def splitMax : ℕ → List Char → List (List Char)
  | 0, cs => [cs]
  | n + 1, cs =>
      match breakAtSpace cs with
      | (a, none) => [a]
      | (a, some rest) => a :: splitMax n rest

/-! ### IRC line parsing (`AnonymousTwitchReader.parse_irc_message`, svm.py 148-169) -/

/-- `AnonymousTwitchReader.parse_irc_message`: on a line containing `PRIVMSG`
and not starting with `PING`, split on the first three spaces; when at least
four parts result and the first starts with the `:` sentinel, the user is the
segment of the first part (sentinel stripped) before the first `!`, the channel
is the third part with a leading `#` stripped, and the text is the fourth part
with a leading `:` stripped.  Every other line yields the empty result
(`None, None, None` in the source, `none` here).  The body's `try/except`
cannot be triggered by these string operations, so the function is total. -/
def parse_irc_message (raw : String) : Option (String × String × String) :=
  if containsSub ("PRIVMSG".data) raw.data && !(startsWithList ("PING".data) raw.data) then
    match splitMax 3 raw.data with
    | user_part :: _ :: chan :: msg :: _ =>
        match user_part with
        | ':' :: rest =>
            let user := beforeChar '!' rest
            let channel := match chan with
              | '#' :: c => c
              | _ => chan
            let message := match msg with
              | ':' :: m => m
              | _ => msg
            some (⟨user⟩, ⟨channel⟩, ⟨message⟩)
        | _ => none
    | _ => none
  else
    none

/-- The chat-post shape of §4.1: contains `PRIVMSG`, does not start with
`PING`, splits (on the first three spaces) into at least four parts, and the
first part starts with the `:` sentinel.  `parse_irc_message` produces a chat
event exactly on lines of this shape. -/
def wellFormedChatPost (raw : String) : Bool :=
  containsSub ("PRIVMSG".data) raw.data && !(startsWithList ("PING".data) raw.data) &&
    (match splitMax 3 raw.data with
     | (':' :: _) :: _ :: _ :: _ :: _ => true
     | _ => false)

/-! ### Listen loop dispatch (`connect_and_listen`, svm.py 192-205) -/

/-- What the listen loop does with one inbound line. -/
inductive ListenAction where
  | pong
  | chat (user channel text : String)
  | ignored
  deriving DecidableEq, Repr

/-- The per-line body of the `async for` loop in `connect_and_listen`: a line
containing `PING` anywhere receives a `PONG` reply and is dropped (`continue`);
otherwise the line is parsed and, when all three parsed fields are non-empty
(Python truthiness of `if user and channel and message`), a chat event is
processed; otherwise the line is ignored. -/
def listen_step (raw : String) : ListenAction :=
  if containsSub ("PING".data) raw.data then
    ListenAction.pong
  else
    match parse_irc_message raw with
    | some (u, c, t) =>
        if u != "" && c != "" && t != "" then ListenAction.chat u c t
        else ListenAction.ignored
    | none => ListenAction.ignored

/-! ### Bounded cache (`deque(maxlen=1000)`, svm.py 18-19) -/

/-- Capacity of both cache deques (`deque(maxlen=1000)`). -/
def cacheCapacity : ℕ := 1000

/-- One entry of `recent_messages` (the dict appended at svm.py 102-108); the
wall-clock `timestamp` field is omitted from the model. -/
structure CacheEntry where
  user : String
  channel : String
  message : String
  sentiment : ℚ
  deriving DecidableEq, Repr

/-- `collections.deque(maxlen=cap).append(x)`: the deque keeps the last `cap`
elements, evicting from the left when at capacity.  Appending and then keeping
the last `cap` elements is exactly this behaviour (when `xs.length < cap` the
drop count is `0` and this is a plain append). -/
def dequeAppend {α : Type*} (cap : ℕ) (xs : List α) (x : α) : List α :=
  (xs ++ [x]).drop (xs.length + 1 - cap)

/-- The in-memory state of `SentimentClassifier`: the two parallel cache
sequences (oldest first, as in the deques). -/
structure SCState where
  recent_messages : List CacheEntry
  sentiment_cache : List ℚ
  deriving DecidableEq, Repr

/-- Where, if anywhere, the `try` body of `process_message` raises: the message
insert (`store_message`), classification (`analyze_sentiment`), or the
sentiment insert (`store_sentiment`). -/
inductive ProcessOutcome where
  | success
  | storeMessageError (e : String)
  | classifyError (e : String)
  | storeSentimentError (e : String)
  deriving DecidableEq, Repr

/-- The cache effect of `SentimentClassifier.process_message` (svm.py 89-117).
The whole body is one `try` block: store the message, classify, store the
sentiment, and only then append to both deques.  An exception raised at any of
the three earlier steps jumps to the `except` clause (which only logs), so the
two appends are skipped and the state is unchanged. -/
def process_message (st : SCState) (user channel message : String) (sentiment_score : ℚ)
    (outcome : ProcessOutcome) : SCState :=
  match outcome with
  | ProcessOutcome.success =>
      { recent_messages :=
          dequeAppend cacheCapacity st.recent_messages
            ⟨user, channel, message, sentiment_score⟩,
        sentiment_cache := dequeAppend cacheCapacity st.sentiment_cache sentiment_score }
  | _ => st

/-! ### Aggregation (`get_average_sentiment`, svm.py 119-139) -/

/-- The dict returned by `get_average_sentiment`.  `Option` fields model key
presence: the empty-cache branch returns keys `average_sentiment` and
`message_count` only, while the non-empty branch would return keys `message`,
`message_count` and `sentiment_distribution` (and no `average_sentiment`).
The wall-clock `timestamp` key is omitted from the model. -/
structure SentimentSnapshot where
  average_sentiment : Option ℚ
  message : Option (List ℚ)
  message_count : ℕ
  sentiment_distribution : Option (ℕ × ℕ × ℕ)
  deriving DecidableEq, Repr

/-- Bucket predicate from svm.py 135: `s > 0.1`. -/
def isPositive (s : ℚ) : Bool := decide (s > 1 / 10)

/-- Bucket predicate from svm.py 136: `-0.1 <= s <= 0.1`. -/
def isNeutral (s : ℚ) : Bool := decide (-(1 / 10) ≤ s) && decide (s ≤ 1 / 10)

/-- Bucket predicate from svm.py 137: `s < -0.1`. -/
def isNegative (s : ℚ) : Bool := decide (s < -(1 / 10))

/-- `sum(1 for s in recent_sentiments if s > 0.1)` (svm.py 135). -/
def countPositive (l : List ℚ) : ℕ := l.countP isPositive

/-- `sum(1 for s in recent_sentiments if -0.1 <= s <= 0.1)` (svm.py 136). -/
def countNeutral (l : List ℚ) : ℕ := l.countP isNeutral

/-- `sum(1 for s in recent_sentiments if s < -0.1)` (svm.py 137). -/
def countNegative (l : List ℚ) : ℕ := l.countP isNegative

/-- `get_average_sentiment` (svm.py 119-139) as a function of the score cache.
On an empty cache it returns the dict `{'average_sentiment': 0,
'message_count': 0, 'timestamp': ...}` — note: no `sentiment_distribution`
key.  On a non-empty cache, line 127 evaluates `self.sentiment_cache[-n_messages:]`,
and `collections.deque` does not support slice indexing, so a `TypeError` is
raised before anything is returned; the non-empty branch (including the mean
and the bucket counts) is unreachable.  (The definition itself is also nested
inside `process_message` in the source, so it is not an attribute of
`SentimentClassifier` at all; callers such as API.py line 102 get an
`AttributeError`.  This models the function body as written.) -/
def get_average_sentiment (sentiment_cache : List ℚ) (n_messages : ℕ) :
    Except String SentimentSnapshot :=
  if sentiment_cache.isEmpty then
    Except.ok
      { average_sentiment := some 0, message := none, message_count := 0,
        sentiment_distribution := none }
  else
    Except.error ("TypeError: sequence index must be integer, not slice")

/-! ### Stream publisher (`sentiment_stream.event_stream`, API.py 97-114) -/

/-- A payload yielded to one SSE subscriber: either a serialized snapshot or
the error-shaped payload `{"error": str(e)}`. -/
inductive StreamEvent where
  | payload (snapshot : SentimentSnapshot)
  | errorPayload (message : String)
  deriving DecidableEq, Repr

/-- One iteration of the `while True` loop in `event_stream`: when the analyzer
is present, computing/serializing the snapshot either succeeds (yield the data
payload, then sleep 5 s) or raises (the `except` clause yields the error-shaped
payload, then sleeps 10 s).  When the analyzer is absent nothing is yielded and
the loop sleeps 5 s.  Returns the optional yielded event and the sleep in
seconds; the loop itself never terminates on an error. -/
def event_stream_tick (analyzerPresent : Bool)
    (snapshot : Except String SentimentSnapshot) : Option StreamEvent × ℕ :=
  if analyzerPresent then
    match snapshot with
    | Except.ok s => (some (StreamEvent.payload s), 5)
    | Except.error e => (some (StreamEvent.errorPayload e), 10)
  else
    (none, 5)

/-- The `while True` loop of `event_stream` run over a finite prefix of tick
inputs: every tick produces exactly one iteration result, errors included —
the loop never exits early. -/
def event_stream_run (ticks : List (Bool × Except String SentimentSnapshot)) :
    List (Option StreamEvent × ℕ) :=
  ticks.map fun t => event_stream_tick t.1 t.2

/-! ### Theorems -/

/-- Claim C1 counterexample: a persistence error raised by the sentiment insert
DOES prevent the cache update.  Processing `("bob", "c1", "great stream")` with
score `1` from the empty state, where `store_sentiment` raises, leaves both
cache sequences empty, and a subsequent aggregate call reports `message_count`
`0` — the entry does not appear. -/
theorem C1_counterexample :
    process_message (SCState.mk [] []) ("bob") ("c1") ("great stream") 1
        (ProcessOutcome.storeSentimentError ("database write failed")) = SCState.mk [] [] ∧
    get_average_sentiment
        (process_message (SCState.mk [] []) ("bob") ("c1") ("great stream") 1
          (ProcessOutcome.storeSentimentError ("database write failed"))).sentiment_cache 50
      = Except.ok (SentimentSnapshot.mk (some 0) none 0 none) :=
  ⟨rfl, rfl⟩

/-- Claim C1 (amended): in `process_message` the cache appends sit after
`store_sentiment` inside the same `try` block, so an exception raised by the
sentiment insert skips the cache update entirely: the state is unchanged (the
error is only logged, so the failure is non-fatal to the pipeline), and the
entry appears in no subsequent aggregate call. -/
theorem C1_amended_sentiment_failure_skips_cache (st : SCState)
    (user channel message : String) (score : ℚ) (e : String) :
    process_message st user channel message score (ProcessOutcome.storeSentimentError e) = st :=
  rfl

/-- Claim C2 (code-bug evaluation): on any non-empty cache — here a single
score `1` with the default window `50` — `get_average_sentiment` raises
`TypeError` (a `deque` rejects slice indexing at svm.py 127) instead of
returning a snapshot with the mean and count.  Independently, the definition is
nested inside `process_message`, so the call at API.py 102 raises
`AttributeError`. -/
theorem C2_nonempty_aggregate_raises :
    get_average_sentiment [1] 50
      = Except.error ("TypeError: sequence index must be integer, not slice") :=
  rfl

/-- Claim C3 counterexample: on the empty cache the returned dict has no
`sentiment_distribution` key at all (modelled as `none`), so it does not
contain three bucket counts equal to `0` as claimed. -/
theorem C3_counterexample :
    get_average_sentiment [] 50 = Except.ok (SentimentSnapshot.mk (some 0) none 0 none) ∧
    (SentimentSnapshot.mk (some 0) none 0 none).sentiment_distribution ≠ some (0, 0, 0) :=
  ⟨rfl, by simp⟩

/-- Claim C3 (amended): for every window `w`, `get_average_sentiment` on the
empty cache returns without error a snapshot with mean `0` and message count
`0`; the snapshot contains no bucket counts (the empty-cache branch builds no
`sentiment_distribution`). -/
theorem C3_amended_empty_aggregate (w : ℕ) :
    get_average_sentiment [] w = Except.ok (SentimentSnapshot.mk (some 0) none 0 none) :=
  rfl

/-- Claim C6: parsing the well-formed chat-post line
`:alice!alice@x PRIVMSG #somechannel :hello world` yields
`("alice", "somechannel", "hello world")`. -/
theorem C6_parse_wellformed_line :
    parse_irc_message (":alice!alice@x PRIVMSG #somechannel :hello world")
      = some ("alice", "somechannel", "hello world") :=
  rfl

/-- Claim C9: in the per-subscriber stream loop, an error while computing or
serializing one tick's snapshot is caught and converted into the error-shaped
payload with a 10-second backoff (a successful tick yields the data payload
with the normal 5-second cadence), and the loop produces one iteration per
tick — it never terminates the subscriber's connection on an error. -/
theorem C9_stream_error_backoff :
    (∀ e : String, event_stream_tick true (Except.error e)
        = (some (StreamEvent.errorPayload e), 10)) ∧
    (∀ s : SentimentSnapshot, event_stream_tick true (Except.ok s)
        = (some (StreamEvent.payload s), 5)) ∧
    (∀ ticks : List (Bool × Except String SentimentSnapshot),
        (event_stream_run ticks).length = ticks.length) :=
  ⟨fun _ => rfl, fun _ => rfl, fun ticks => by simp [event_stream_run]⟩

/-! ### Deque theory: folding appends keeps the last `cap` elements -/

/-- The last `cap` elements of `ys` (what a `deque(maxlen=cap)` retains). -/
def keepLast {α : Type*} (cap : ℕ) (ys : List α) : List α :=
  ys.drop (ys.length - cap)

lemma dequeAppend_eq_keepLast {α : Type*} (cap : ℕ) (xs : List α) (x : α) :
    dequeAppend cap xs x = keepLast cap (xs ++ [x]) := by
  simp [dequeAppend, keepLast]

lemma length_dequeAppend {α : Type*} (cap : ℕ) (xs : List α) (x : α) :
    (dequeAppend cap xs x).length = xs.length + 1 - (xs.length + 1 - cap) := by
  simp [dequeAppend]

lemma length_keepLast_le {α : Type*} (cap : ℕ) (ys : List α) :
    (keepLast cap ys).length ≤ cap := by
  simp only [keepLast, List.length_drop]
  omega

lemma keepLast_of_le {α : Type*} (cap : ℕ) (ys : List α) (h : ys.length ≤ cap) :
    keepLast cap ys = ys := by
  simp [keepLast, Nat.sub_eq_zero_of_le h]

lemma keepLast_keepLast_append {α : Type*} (cap : ℕ) (ys l : List α) :
    keepLast cap (keepLast cap ys ++ l) = keepLast cap (ys ++ l) := by
  rcases le_or_lt ys.length cap with h | h
  · rw [keepLast_of_le cap ys h]
  · have hk : ys.length - cap ≤ ys.length := Nat.sub_le _ _
    unfold keepLast
    rw [← List.drop_append_of_le_length hk, List.drop_drop]
    congr 1
    simp only [List.length_drop, List.length_append]
    omega

lemma foldl_dequeAppend {α : Type*} (cap : ℕ) :
    ∀ (l acc : List α), acc.length ≤ cap →
      List.foldl (dequeAppend cap) acc l = keepLast cap (acc ++ l)
  | [], acc, h => by simp [keepLast_of_le cap acc h]
  | x :: l, acc, h => by
    rw [List.foldl_cons,
      foldl_dequeAppend cap l (dequeAppend cap acc x)
        (by rw [length_dequeAppend]; omega),
      dequeAppend_eq_keepLast, keepLast_keepLast_append, List.append_assoc,
      List.singleton_append]

lemma foldl_dequeAppend_nil {α : Type*} (cap : ℕ) (l : List α) :
    List.foldl (dequeAppend cap) [] l = keepLast cap l := by
  simpa using foldl_dequeAppend cap l [] (by simp)

/-- Claim C4: appending `1001` pairwise-distinct entries `f 0, …, f 1000` into
a fresh `deque(maxlen=1000)` never exceeds `1000` elements at any intermediate
step; the final content is exactly `f 1, …, f 1000` (FIFO: the head was
evicted), so the oldest entry `f 0` is absent and the newest `f 1000` is
present. -/
theorem C4_fifo_eviction_1001 {α : Type*} (f : ℕ → α) (hinj : Function.Injective f) :
    (∀ k : ℕ,
        (List.foldl (dequeAppend 1000) [] (((List.range 1001).map f).take k)).length ≤ 1000) ∧
    List.foldl (dequeAppend 1000) [] ((List.range 1001).map f)
      = ((List.range 1001).map f).drop 1 ∧
    f 0 ∉ List.foldl (dequeAppend 1000) [] ((List.range 1001).map f) ∧
    f 1000 ∈ List.foldl (dequeAppend 1000) [] ((List.range 1001).map f) := by
  have hlen : ((List.range 1001).map f).length = 1001 := by simp
  have hfinal : List.foldl (dequeAppend 1000) [] ((List.range 1001).map f)
      = ((List.range 1001).map f).drop 1 := by
    rw [foldl_dequeAppend_nil]
    unfold keepLast
    rw [hlen]
  have hmap : ((List.range 1001).map f).drop 1
      = (List.range 1000).map (fun i => f (i + 1)) := by
    have h1001 : (1001 : ℕ) = 1000 + 1 := rfl
    rw [h1001, List.range_succ_eq_map]
    simp [List.map_map, Function.comp, Nat.succ_eq_add_one]
  refine ⟨?_, hfinal, ?_, ?_⟩
  · intro k
    rw [foldl_dequeAppend_nil]
    exact length_keepLast_le _ _
  · rw [hfinal, hmap]
    intro hmem
    rw [List.mem_map] at hmem
    obtain ⟨i, _, hfi⟩ := hmem
    have := hinj hfi
    omega
  · rw [hfinal, hmap]
    exact List.mem_map.mpr ⟨999, by simp, by norm_num⟩

/-- Witness for C4 at the concrete injective entry sequence `f i = i`. -/
theorem C4_fifo_eviction_1001_witness :
    Function.Injective (fun i : ℕ => i) ∧
    ((∀ k : ℕ,
        (List.foldl (dequeAppend 1000) []
          (((List.range 1001).map (fun i : ℕ => i)).take k)).length ≤ 1000) ∧
      List.foldl (dequeAppend 1000) [] ((List.range 1001).map (fun i : ℕ => i))
        = ((List.range 1001).map (fun i : ℕ => i)).drop 1 ∧
      (fun i : ℕ => i) 0 ∉
        List.foldl (dequeAppend 1000) [] ((List.range 1001).map (fun i : ℕ => i)) ∧
      (fun i : ℕ => i) 1000 ∈
        List.foldl (dequeAppend 1000) [] ((List.range 1001).map (fun i : ℕ => i))) :=
  ⟨fun _ _ h => h, C4_fifo_eviction_1001 (fun i => i) (fun _ _ h => h)⟩

/-- Claim C8: the equal-length bounded invariant of the two parallel cache
sequences — equal lengths, both at most `1000` — is preserved by
`process_message` for every input and every outcome (on failure the state is
unchanged; on success both deques are appended together). -/
theorem C8_cache_invariant (st : SCState)
    (h1 : st.recent_messages.length = st.sentiment_cache.length)
    (h2 : st.sentiment_cache.length ≤ 1000)
    (user channel message : String) (score : ℚ) (outcome : ProcessOutcome) :
    (process_message st user channel message score outcome).recent_messages.length
        = (process_message st user channel message score outcome).sentiment_cache.length ∧
      (process_message st user channel message score outcome).sentiment_cache.length ≤ 1000 := by
  cases outcome <;>
    simp only [process_message, length_dequeAppend, cacheCapacity] <;>
    omega

/-- Witness for C8: the empty state, a successful processing step. -/
theorem C8_cache_invariant_witness :
    ((SCState.mk [] []).recent_messages.length = (SCState.mk [] []).sentiment_cache.length ∧
      (SCState.mk [] []).sentiment_cache.length ≤ 1000) ∧
    ((process_message (SCState.mk [] []) ("bob") ("c1") ("great stream") 1
        ProcessOutcome.success).recent_messages.length
      = (process_message (SCState.mk [] []) ("bob") ("c1") ("great stream") 1
          ProcessOutcome.success).sentiment_cache.length ∧
      (process_message (SCState.mk [] []) ("bob") ("c1") ("great stream") 1
          ProcessOutcome.success).sentiment_cache.length ≤ 1000) :=
  ⟨⟨rfl, by decide⟩,
    C8_cache_invariant (SCState.mk [] []) rfl (by decide) ("bob") ("c1") ("great stream") 1
      ProcessOutcome.success⟩

/-! ### Bucketing (svm.py 134-138) -/

lemma bucket_exactly_one (s : ℚ) :
    (isPositive s).toNat + (isNeutral s).toNat + (isNegative s).toNat = 1 := by
  unfold isPositive isNeutral isNegative
  by_cases h1 : s < -(1 / 10 : ℚ)
  · have e1 : decide (s > 1 / 10) = false := decide_eq_false (by
      intro hc
      have : (-(1 / 10) : ℚ) < 1 / 10 := by norm_num
      exact absurd h1 (by linarith))
    have e2 : decide (-(1 / 10) ≤ s) = false := decide_eq_false (not_le.mpr h1)
    have e3 : decide (s < -(1 / 10)) = true := decide_eq_true h1
    rw [e1, e2, e3]
    rfl
  · by_cases h2 : (1 : ℚ) / 10 < s
    · have e1 : decide (s > 1 / 10) = true := decide_eq_true h2
      have e2 : decide (-(1 / 10) ≤ s) = true := decide_eq_true (by
        have : (-(1 / 10) : ℚ) < 1 / 10 := by norm_num
        linarith)
      have e3 : decide (s ≤ 1 / 10) = false := decide_eq_false (not_le.mpr h2)
      have e4 : decide (s < -(1 / 10)) = false := decide_eq_false h1
      rw [e1, e2, e3, e4]
      rfl
    · have e1 : decide (s > 1 / 10) = false := decide_eq_false h2
      have e2 : decide (-(1 / 10) ≤ s) = true := decide_eq_true (not_lt.mp h1)
      have e3 : decide (s ≤ 1 / 10) = true := decide_eq_true (not_lt.mp h2)
      have e4 : decide (s < -(1 / 10)) = false := decide_eq_false h1
      rw [e1, e2, e3, e4]
      rfl

lemma bucket_counts_length (l : List ℚ) :
    countPositive l + countNeutral l + countNegative l = l.length := by
  induction l with
  | nil => rfl
  | cons a t ih =>
      unfold countPositive countNeutral countNegative at ih ⊢
      rw [List.countP_cons, List.countP_cons, List.countP_cons]
      have h := bucket_exactly_one a
      cases hp : isPositive a <;> cases hn : isNeutral a <;> cases hg : isNegative a <;>
        rw [hp, hn, hg] at h <;> simp at h ⊢ <;> omega

/-- Claim C5: the aggregator's bucketing is exclusive and total — for every
score exactly one of the three bucket predicates (svm.py 135-137) holds, and
consequently the three bucket counts of any score list sum to its length. -/
theorem C5_bucketing_exclusive_total :
    (∀ s : ℚ, (isPositive s).toNat + (isNeutral s).toNat + (isNegative s).toNat = 1) ∧
    (∀ l : List ℚ, countPositive l + countNeutral l + countNegative l = l.length) :=
  ⟨bucket_exactly_one, bucket_counts_length⟩

/-- Claim C7: every line that does not match the chat-post shape yields the
empty parse result — malformed and unrelated protocol lines are silently
dropped, and since `parse_irc_message` is a total function, no error reaches
the listen loop. -/
theorem C7_malformed_lines_dropped (raw : String)
    (h : wellFormedChatPost raw = false) : parse_irc_message raw = none := by
  unfold parse_irc_message
  unfold wellFormedChatPost at h
  by_cases hc :
      (containsSub ("PRIVMSG".data) raw.data && !(startsWithList ("PING".data) raw.data)) = true
  · rw [hc] at h
    rw [hc]
    simp only [Bool.true_and] at h
    simp only [if_true]
    split
    · rename_i user_part a chan msg rest heq
      rw [heq] at h
      split
      · simp at h
      · rfl
    · rfl
  · rw [Bool.not_eq_true] at hc
    rw [hc]
    rfl

/-- Witness for C7: the server join acknowledgment line (not a chat-post line)
is silently dropped by the parser. -/
theorem C7_malformed_lines_dropped_witness :
    wellFormedChatPost (":tmi.twitch.tv JOIN #somechannel") = false ∧
    parse_irc_message (":tmi.twitch.tv JOIN #somechannel") = none :=
  ⟨by decide, C7_malformed_lines_dropped (":tmi.twitch.tv JOIN #somechannel") (by decide)⟩

/-- Claim C10: every inbound line containing the substring `PING` anywhere —
including a well-formed chat-post line whose text contains `PING` — makes the
listen loop send the keepalive reply and produce no chat event, and the
chat-post branch is reached only for lines not containing `PING`. -/
theorem C10_ping_takes_priority :
    (∀ raw : String,
        containsSub ("PING".data) raw.data = true → listen_step raw = ListenAction.pong) ∧
    (∀ (raw : String) (user channel text : String),
        listen_step raw = ListenAction.chat user channel text →
          containsSub ("PING".data) raw.data = false) := by
  constructor
  · intro raw h
    unfold listen_step
    rw [h]
    rfl
  · intro raw u c t h
    unfold listen_step at h
    cases hc : containsSub ("PING".data) raw.data with
    | false => rfl
    | true =>
        rw [hc] at h
        simp at h

/-- Witness for C10: a well-formed chat-post line whose chat text contains
`PING` still receives the keepalive reply and yields no chat event. -/
theorem C10_ping_takes_priority_witness :
    containsSub ("PING".data) ((":bob!bob@x PRIVMSG #somechannel :send a PING now" : String).data)
        = true ∧
    listen_step (":bob!bob@x PRIVMSG #somechannel :send a PING now") = ListenAction.pong :=
  ⟨by decide, C10_ping_takes_priority.1 (":bob!bob@x PRIVMSG #somechannel :send a PING now")
    (by decide)⟩
